import Mathlib

/-!
Verification of the voting / credit-economy backend (playlists service).

Shallow embedding conventions:
- `Uuid` values are modelled as `Nat` (only identity matters to the logic).
- `i64` user ids and credit balances are modelled as `Int`; the `i32` vote
  counter is modelled as `Int` (no claim here depends on 32-bit overflow).
- The Scylla session is modelled as an explicit state value (`Store` for the
  voting subsystem, `Db` for the table-name-keyed CRUD view).
- Every fallible remote call of a vote handler is guarded by a failure oracle
  `fails : StoreOp → Bool`; `?`-propagation of a store error is modelled by
  returning `none` as the response together with the state reached so far.
- Code of this repository that is missing from `src/` (the `playlist`,
  `entries` and `user_info` helper modules: cooldown reads and writes, credit
  reads and adjustments, row removal) is modelled from the spec; each such
  definition carries a doc comment starting `Modelled from the spec:`.
-/

/-- serde_json number, as stored by serde_json: an unsigned 64-bit integer, a
negative 64-bit integer, or a float (opaque here: `as_i64` rejects floats). -/
inductive JNumber where
  | posInt (n : Nat)
  | negInt (i : Int)
  | float
deriving DecidableEq

/-- serde_json `Value`. -/
inductive Value where
  | null
  | bool (b : Bool)
  | number (n : JNumber)
  | str (s : String)
  | arr (xs : List Value)
  | obj (fields : List (String × Value))

/-- Largest i64, `i64::MAX`. -/
def i64max : Int := 9223372036854775807

/-- Smallest i64, `i64::MIN`. -/
def i64min : Int := -9223372036854775808

/-- serde_json `Value::as_i64`: `Some` only for integer JSON numbers that fit
in an i64; `None` for floats, strings and everything else. -/
def Value.as_i64 : Value → Option Int
  | .number (.posInt n) => if (n : Int) ≤ i64max then some (n : Int) else none
  | .number (.negInt i) => some i
  | _ => none

/-- How serde_json represents an integer JSON literal as a number. -/
def JNumber.ofInt (i : Int) : JNumber :=
  if 0 ≤ i then .posInt i.toNat else .negInt i

/-- Rust `impl ToJSON for JsSafeBigInt` (src/utils.rs lines 53-57):
`json!(self.0.to_string())`, the decimal string of the i64. -/
def JsSafeBigInt.to_json (x : Int) : Value :=
  .str (toString x)

/-- Rust `impl ParseFromJSON for JsSafeBigInt` (src/utils.rs lines 59-65):
`value.as_i64()` mapped into the constructor, else a custom parse error. -/
def JsSafeBigInt.parse_from_json (value : Value) : Except String Int :=
  match value.as_i64 with
  | some v => .ok v
  | none => .error "cannot convert value into integer"

/-- Function `token_checker` (src/utils.rs lines 90-98), with the lazily-initialised
`SUPERUSER_KEY` environment value (lines 76-80) passed explicitly as the
`Option String` it is: accept only when a key is set and the bearer token
equals it. -/
def token_checker (superuser_key : Option String) (token : String) : Option Unit :=
  match superuser_key with
  | some key => if token = key then some () else none
  | none => none

/-- The `Playlist` row (src/users/playlist_info.rs lines 10-21). -/
structure Playlist where
  id : Nat
  owner_id : Int
  banner : Option String
  description : Option String
  items : List Nat
  is_public : Bool
  nsfw : Bool
  title : String
  votes : Int
deriving DecidableEq

/-- The `PlaylistEntry` row (src/users/playlist_info.rs lines 23-33). -/
structure PlaylistEntry where
  id : Nat
  owner_id : Int
  description : Option String
  is_public : Bool
  nsfw : Bool
  ref_link : Option String
  title : String
  votes : Int
deriving DecidableEq

/-- The `JsonResponse` enum (src/utils.rs lines 100-113). A `BadRequest` carries the
`detail` string of its JSON body. -/
inductive JsonResponse (T : Type) where
  | ok (value : T)
  | badRequest (detail : String)
  | unauthorized
  | forbidden
deriving DecidableEq

/-- C9: the superuser token checker accepts a bearer token iff the
SUPERUSER_KEY environment value was present and the presented token equals it
exactly; with no key set, every token is rejected. -/
theorem token_checker_accepts_iff (superuser_key : Option String) (token : String) :
    token_checker superuser_key token = some () ↔ superuser_key = some token := by
  unfold token_checker
  cases superuser_key with
  | none => simp
  | some key =>
    constructor
    · intro h
      by_cases hk : token = key
      · simp [hk]
      · simp [hk] at h
    · intro h
      rw [Option.some.injEq] at h
      simp [h]

/-- C4 counterexample: decoding the encoding of the i64 value 1 does not give
back 1; it fails, because `to_json` produces a JSON string and `as_i64`
rejects strings. -/
theorem to_json_roundtrip_fails_at_one :
    JsSafeBigInt.parse_from_json (JsSafeBigInt.to_json 1) =
      .error "cannot convert value into integer" := rfl

/-- C4 (amended): `to_json` encodes every i64 as its decimal string, and
`parse_from_json` decodes any integer JSON number in the i64 range back to
that value; but it rejects every JSON string, so the encoding of an i64 never
round-trips through `parse_from_json`. -/
theorem jsSafeBigInt_encode_decode
    (x : Int) (i : Int) (_hlo : i64min ≤ i) (hhi : i ≤ i64max) (s : String) :
    JsSafeBigInt.to_json x = .str (toString x) ∧
    JsSafeBigInt.parse_from_json (.number (JNumber.ofInt i)) = .ok i ∧
    JsSafeBigInt.parse_from_json (.str s) =
      .error "cannot convert value into integer" ∧
    JsSafeBigInt.parse_from_json (JsSafeBigInt.to_json x) =
      .error "cannot convert value into integer" := by
  refine ⟨rfl, ?_, rfl, rfl⟩
  unfold JsSafeBigInt.parse_from_json JNumber.ofInt Value.as_i64
  by_cases h0 : 0 ≤ i
  · have htoNat : ((i.toNat : Int)) = i := Int.toNat_of_nonneg h0
    simp only [h0, if_true]
    rw [htoNat]
    simp [hhi]
  · simp [h0]

/-- C4 witness for `jsSafeBigInt_encode_decode` at x = 5, i = -3, s = "7". -/
theorem jsSafeBigInt_encode_decode_witness :
    i64min ≤ (-3 : Int) ∧ (-3 : Int) ≤ i64max ∧
    (JsSafeBigInt.to_json 5 = .str (toString (5 : Int)) ∧
     JsSafeBigInt.parse_from_json (.number (JNumber.ofInt (-3))) = .ok (-3) ∧
     JsSafeBigInt.parse_from_json (.str "7") =
       .error "cannot convert value into integer" ∧
     JsSafeBigInt.parse_from_json (JsSafeBigInt.to_json 5) =
       .error "cannot convert value into integer") :=
  ⟨by decide, by decide,
   jsSafeBigInt_encode_decode 5 (-3) (by decide) (by decide) "7"⟩

/-- The remote store calls a vote handler issues, in source order
(src/src/playlists/mod.rs lines 200-226 and 244-270): target read, cooldown
read, balance read, credit debit, cooldown write, counter increment. -/
inductive StoreOp where
  | readTarget
  | readCooldown
  | readBalance
  | writeDebit
  | writeCooldown
  | writeIncrement
deriving DecidableEq

/-- The backing store as seen by the voting subsystem: the credit ledger
(user id to credits, absent row = 0), the two cooldown trackers (disjoint key
spaces for playlist and entry targets, per (user, target) the `cast_at`
timestamp), and the two target tables. -/
structure Store where
  credits : Int → Int
  playlistVotedAt : Int → Nat → Option Nat
  entryVotedAt : Int → Nat → Option Nat
  playlists : Nat → Option Playlist
  entries : Nat → Option PlaylistEntry

/-- The fixed 12-hour cooldown window, in seconds. -/
def cooldown_window : Nat := 12 * 60 * 60

/-- Modelled from the spec: `has_voted_recently` over a cooldown map
(src module `playlist`/`entries` is missing from src/); true iff a vote
record exists for the key with `now - cast_at < cooldown_window`. -/
def has_voted_recently (votedAt : Int → Nat → Option Nat)
    (now : Nat) (user_id : Int) (target_id : Nat) : Bool :=
  match votedAt user_id target_id with
  | none => false
  | some cast_at => now - cast_at < cooldown_window

/-- Modelled from the spec: `playlist::has_user_voted`, the cooldown read on
the playlist tracker. -/
def playlist_has_user_voted (s : Store) (now : Nat) (user_id : Int) (id : Nat) : Bool :=
  has_voted_recently s.playlistVotedAt now user_id id

/-- Modelled from the spec: `entries::has_user_voted`, the cooldown read on
the entry tracker. -/
def entries_has_user_voted (s : Store) (now : Nat) (user_id : Int) (id : Nat) : Bool :=
  has_voted_recently s.entryVotedAt now user_id id

/-- Modelled from the spec: `user_info::get_user_vote_credits`, the credit
ledger balance read (`get_balance`); an absent row reads as its stored 0. -/
def get_user_vote_credits (s : Store) (user_id : Int) : Int :=
  s.credits user_id

/-- Modelled from the spec: `user_info::adjust_user_credits`, the relative
credit adjustment `adjust(user_id, delta)`, unconditional on the resulting
balance. -/
def adjust_user_credits (s : Store) (user_id : Int) (delta : Int) : Store :=
  { s with credits := fun u => if u = user_id then s.credits u + delta else s.credits u }

/-- Modelled from the spec: the cooldown-record half of
`playlist::upvote_playlist` (`record_vote`), an upsert of `cast_at := now`
for the (user, target) key on the playlist tracker. -/
def playlist_record_vote (s : Store) (now : Nat) (user_id : Int) (id : Nat) : Store :=
  { s with playlistVotedAt := fun u t =>
      if u = user_id ∧ t = id then some now else s.playlistVotedAt u t }

/-- Modelled from the spec: the counter half of `playlist::upvote_playlist`,
a blind increment of the stored vote counter of the playlist. -/
def playlist_increment_votes (s : Store) (id : Nat) : Store :=
  { s with playlists := fun t =>
      if t = id then (s.playlists t).map (fun p => { p with votes := p.votes + 1 })
      else s.playlists t }

/-- Modelled from the spec: the cooldown-record half of
`entries::upvote_playlist` (`record_vote`) on the entry tracker. -/
def entries_record_vote (s : Store) (now : Nat) (user_id : Int) (id : Nat) : Store :=
  { s with entryVotedAt := fun u t =>
      if u = user_id ∧ t = id then some now else s.entryVotedAt u t }

/-- Modelled from the spec: the counter half of `entries::upvote_playlist`,
a blind increment of the stored vote counter of the entry. -/
def entries_increment_votes (s : Store) (id : Nat) : Store :=
  { s with entries := fun t =>
      if t = id then (s.entries t).map (fun e => { e with votes := e.votes + 1 })
      else s.entries t }

/-- Modelled from the spec: `playlist::remove_playlist`, deletion of the row. -/
def remove_playlist (s : Store) (id : Nat) : Store :=
  { s with playlists := fun t => if t = id then none else s.playlists t }

/-- Modelled from the spec: `entries::remove_entry`, deletion of the row. -/
def remove_entry (s : Store) (id : Nat) : Store :=
  { s with entries := fun t => if t = id then none else s.entries t }

/-- Outcome of one vote handler run: the HTTP response (`none` when a store
call failed and the error propagated via `?`), the store state reached, and
the successfully executed store calls in order. -/
structure VoteRun (T : Type) where
  resp : Option (JsonResponse T)
  store : Store
  ops : List StoreOp

/-- The all-calls-succeed failure oracle. -/
def no_failure : StoreOp → Bool := fun _ => false

/-- The oracle under which exactly one store call fails. -/
def fail_only (op : StoreOp) : StoreOp → Bool := fun o => o = op

/-- Handler `PlaylistsApi::upvote_playlist` (src/src/playlists/mod.rs lines 189-227):
resolve the user from the token, resolve the playlist, gate on cooldown, gate
on credits, then debit one credit, record the cooldown, increment the stored
counter, and return the previously read playlist with its count bumped
client-side. `resolve` is the external `get_user_id_from_token` boundary;
`fails` says which store calls error. -/
def PlaylistsApi.upvote_playlist (fails : StoreOp → Bool)
    (resolve : String → Option Int) (s : Store) (now : Nat)
    (token : String) (id : Nat) : VoteRun Playlist :=
  match resolve token with
  | none => ⟨some .unauthorized, s, []⟩
  | some user_id =>
    if fails .readTarget then ⟨none, s, []⟩ else
    match s.playlists id with
    | none => ⟨some (.badRequest "Playlist does not exist."), s, [.readTarget]⟩
    | some pl =>
      if fails .readCooldown then ⟨none, s, [.readTarget]⟩ else
      if playlist_has_user_voted s now user_id pl.id then
        ⟨some (.badRequest "You have already up-voted this playlist in the last 12 hours."),
          s, [.readTarget, .readCooldown]⟩
      else
      if fails .readBalance then ⟨none, s, [.readTarget, .readCooldown]⟩ else
      let credits := get_user_vote_credits s user_id
      if credits ≤ 0 then
        ⟨some (.badRequest "You do not have enough credits."),
          s, [.readTarget, .readCooldown, .readBalance]⟩
      else
      if fails .writeDebit then ⟨none, s, [.readTarget, .readCooldown, .readBalance]⟩ else
      let s1 := adjust_user_credits s user_id (-1)
      if fails .writeCooldown then
        ⟨none, s1, [.readTarget, .readCooldown, .readBalance, .writeDebit]⟩
      else
      let s2 := playlist_record_vote s1 now user_id pl.id
      if fails .writeIncrement then
        ⟨none, s2, [.readTarget, .readCooldown, .readBalance, .writeDebit, .writeCooldown]⟩
      else
      let s3 := playlist_increment_votes s2 pl.id
      ⟨some (.ok { pl with votes := pl.votes + 1 }), s3,
        [.readTarget, .readCooldown, .readBalance, .writeDebit, .writeCooldown, .writeIncrement]⟩

/-- Handler `PlaylistsApi::upvote_entry` (src/src/playlists/mod.rs lines 233-271),
the entry-target twin of `PlaylistsApi.upvote_playlist`. -/
def PlaylistsApi.upvote_entry (fails : StoreOp → Bool)
    (resolve : String → Option Int) (s : Store) (now : Nat)
    (token : String) (id : Nat) : VoteRun PlaylistEntry :=
  match resolve token with
  | none => ⟨some .unauthorized, s, []⟩
  | some user_id =>
    if fails .readTarget then ⟨none, s, []⟩ else
    match s.entries id with
    | none => ⟨some (.badRequest "Entry does not exist."), s, [.readTarget]⟩
    | some en =>
      if fails .readCooldown then ⟨none, s, [.readTarget]⟩ else
      if entries_has_user_voted s now user_id en.id then
        ⟨some (.badRequest "You have already up-voted this entry in the last 12 hours."),
          s, [.readTarget, .readCooldown]⟩
      else
      if fails .readBalance then ⟨none, s, [.readTarget, .readCooldown]⟩ else
      let credits := get_user_vote_credits s user_id
      if credits ≤ 0 then
        ⟨some (.badRequest "You do not have enough credits."),
          s, [.readTarget, .readCooldown, .readBalance]⟩
      else
      if fails .writeDebit then ⟨none, s, [.readTarget, .readCooldown, .readBalance]⟩ else
      let s1 := adjust_user_credits s user_id (-1)
      if fails .writeCooldown then
        ⟨none, s1, [.readTarget, .readCooldown, .readBalance, .writeDebit]⟩
      else
      let s2 := entries_record_vote s1 now user_id en.id
      if fails .writeIncrement then
        ⟨none, s2, [.readTarget, .readCooldown, .readBalance, .writeDebit, .writeCooldown]⟩
      else
      let s3 := entries_increment_votes s2 en.id
      ⟨some (.ok { en with votes := en.votes + 1 }), s3,
        [.readTarget, .readCooldown, .readBalance, .writeDebit, .writeCooldown, .writeIncrement]⟩

/-- Handler `PlaylistsApi::delete_playlist` (src/src/playlists/mod.rs lines 127-152):
unauthenticated tokens are rejected first, a missing playlist is a
`BadRequest` with detail, a non-owner requester gets `Forbidden` with no
removal, and the owner removal deletes the row. -/
def PlaylistsApi.delete_playlist (resolve : String → Option Int) (s : Store)
    (token : String) (id : Nat) : JsonResponse Value × Store :=
  match resolve token with
  | none => (.unauthorized, s)
  | some user_id =>
    match s.playlists id with
    | none => (.badRequest "Playlist does not exist.", s)
    | some pl =>
      if pl.owner_id ≠ user_id then (.forbidden, s)
      else (.ok Value.null, remove_playlist s pl.id)

/-- Handler `PlaylistsApi::delete_playlist_entry` (src/src/playlists/mod.rs lines
158-183), the entry twin of `PlaylistsApi.delete_playlist` (the not-found
detail string really says "Playlist", as in the source). -/
def PlaylistsApi.delete_playlist_entry (resolve : String → Option Int) (s : Store)
    (token : String) (id : Nat) : JsonResponse Value × Store :=
  match resolve token with
  | none => (.unauthorized, s)
  | some user_id =>
    match s.entries id with
    | none => (.badRequest "Playlist does not exist.", s)
    | some en =>
      if en.owner_id ≠ user_id then (.forbidden, s)
      else (.ok Value.null, remove_entry s en.id)

/-- A raw Scylla row: a row that deserializes as a `Playlist`, one that
deserializes as a `PlaylistEntry`, or a malformed row that fails typed
deserialization for either (keeping the `owner_id` column the server-side
WHERE clause filters on). -/
inductive Row where
  | playlistRow (p : Playlist)
  | entryRow (e : PlaylistEntry)
  | badRow (owner_id : Int) (tag : Nat)
deriving DecidableEq

/-- The `owner_id` column of a raw row, as the WHERE clause sees it. -/
def row_owner_id : Row → Int
  | .playlistRow p => p.owner_id
  | .entryRow e => e.owner_id
  | .badRow o _ => o

/-- Conversion `rows.into_typed::<Playlist>()` on one row: succeeds exactly on rows
shaped as playlists. -/
def row_into_typed_playlist : Row → Option Playlist
  | .playlistRow p => some p
  | _ => none

/-- Conversion `rows.into_typed::<PlaylistEntry>()` on one row: succeeds exactly on rows
shaped as entries. -/
def row_into_typed_entry : Row → Option PlaylistEntry
  | .entryRow e => some e
  | _ => none

/-- The database as the CRUD code addresses it: a list of raw rows per table
NAME — the spelling of the table name in the query is part of the key. -/
structure Db where
  tables : String → List Row

/-- An INSERT into the named table. -/
def db_insert (db : Db) (table : String) (r : Row) : Db :=
  ⟨fun n => if n = table then r :: db.tables n else db.tables n⟩

/-- Query `SELECT * FROM <table> WHERE owner_id = ?`. -/
def db_select_by_owner (db : Db) (table : String) (owner : Int) : List Row :=
  (db.tables table).filter (fun r => row_owner_id r == owner)

/-- Function `get_playlists_for_token` (src/users/playlist_info.rs lines 35-57):
resolve the token, SELECT from the table `playlists` by owner, keep exactly
the rows whose typed conversion succeeds (`filter_map(|v| v.ok())`). -/
def get_playlists_for_token (resolve : String → Option Int) (db : Db)
    (token : String) : Option (List Playlist) :=
  match resolve token with
  | none => none
  | some user_id =>
    some ((db_select_by_owner db "playlists" user_id).filterMap row_into_typed_playlist)

/-- Function `get_playlist_entries_for_token` (src/users/playlist_info.rs lines
60-82): resolve the token, SELECT from the table named `playlists_entries`
(as spelled in the source) by owner, keep the rows that convert. -/
def get_playlist_entries_for_token (resolve : String → Option Int) (db : Db)
    (token : String) : Option (List PlaylistEntry) :=
  match resolve token with
  | none => none
  | some user_id =>
    some ((db_select_by_owner db "playlists_entries" user_id).filterMap row_into_typed_entry)

/-- Payload `EntryCreationPayload` (src/src/playlists/mod.rs lines 40-55). -/
structure EntryCreationPayload where
  title : String
  description : Option String
  is_public : Bool
  nsfw : Bool
  ref_link : Option String
deriving DecidableEq

/-- Handler `PlaylistsApi::create_entry` (src/src/playlists/mod.rs lines 340-379):
resolve the user, INSERT the new entry with `votes = 0` into the table named
`playlist_entries` (as spelled in that INSERT), and return the entry (the
source re-reads it through the missing `entries::get_entry_by_id` module;
modelled as returning the row just written). -/
def PlaylistsApi.create_entry (resolve : String → Option Int) (db : Db)
    (token : String) (payload : EntryCreationPayload) (entry_id : Nat) :
    JsonResponse PlaylistEntry × Db :=
  match resolve token with
  | none => (.unauthorized, db)
  | some user_id =>
    let entry : PlaylistEntry :=
      { id := entry_id, owner_id := user_id, description := payload.description,
        is_public := payload.is_public, nsfw := payload.nsfw,
        ref_link := payload.ref_link, title := payload.title, votes := 0 }
    (.ok entry, db_insert db "playlist_entries" (.entryRow entry))

/-- The full call order of one vote attempt. -/
def vote_call_order : List StoreOp :=
  [.readTarget, .readCooldown, .readBalance, .writeDebit, .writeCooldown, .writeIncrement]

/-- Concrete playlist used to instantiate theorems. -/
def ex_playlist : Playlist :=
  { id := 7, owner_id := 1, banner := none, description := none, items := [],
    is_public := true, nsfw := false, title := "mix", votes := 5 }

/-- Concrete entry used to instantiate theorems. -/
def ex_entry : PlaylistEntry :=
  { id := 9, owner_id := 2, description := none, is_public := true, nsfw := false,
    ref_link := none, title := "song", votes := 3 }

/-- Concrete store: one playlist, one entry, every balance 1, no cooldowns. -/
def ex_store : Store :=
  { credits := fun _ => 1,
    playlistVotedAt := fun _ _ => none,
    entryVotedAt := fun _ _ => none,
    playlists := fun t => if t = 7 then some ex_playlist else none,
    entries := fun t => if t = 9 then some ex_entry else none }

/-- The store `ex_store` with an exhausted credit balance. -/
def ex_store_broke : Store :=
  { ex_store with credits := fun _ => 0 }

/-- Concrete token resolution: "tok" is user 1, all else unauthenticated. -/
def ex_resolve : String → Option Int := fun tok => if tok = "tok" then some 1 else none

/-- Concrete empty database. -/
def ex_db : Db := ⟨fun _ => []⟩

/-- Concrete entry-creation payload. -/
def ex_payload : EntryCreationPayload :=
  { title := "song", description := none, is_public := true, nsfw := false, ref_link := none }

/-- Inversion: a `Success` of the playlist vote handler (all store calls
succeeding) pins down every gate: the token resolved, the playlist existed,
no cooldown was active, the balance was positive, and the returned playlist
is the read one with its counter bumped. -/
theorem upvote_playlist_success_shape
    (resolve : String → Option Int) (s : Store) (now : Nat) (token : String)
    (id : Nat) (p : Playlist)
    (h : (PlaylistsApi.upvote_playlist no_failure resolve s now token id).resp =
      some (.ok p)) :
    ∃ user_id pl, resolve token = some user_id ∧ s.playlists id = some pl ∧
      playlist_has_user_voted s now user_id pl.id = false ∧
      0 < get_user_vote_credits s user_id ∧
      p = { pl with votes := pl.votes + 1 } := by
  unfold PlaylistsApi.upvote_playlist at h
  cases hres : resolve token with
  | none => rw [hres] at h; simp at h
  | some user_id =>
    rw [hres] at h
    cases hpl : s.playlists id with
    | none => rw [hpl] at h; simp [no_failure] at h
    | some pl =>
      rw [hpl] at h
      by_cases hv : playlist_has_user_voted s now user_id pl.id
      · simp [no_failure, hv] at h
      · by_cases hc : get_user_vote_credits s user_id ≤ 0
        · simp [no_failure, hv, hc] at h
        · refine ⟨user_id, pl, rfl, rfl, by simp [hv], by omega, ?_⟩
          simp [no_failure, hv, hc] at h
          exact h.symm

/-- Inversion twin of `upvote_playlist_success_shape` for the entry handler. -/
theorem upvote_entry_success_shape
    (resolve : String → Option Int) (s : Store) (now : Nat) (token : String)
    (id : Nat) (p : PlaylistEntry)
    (h : (PlaylistsApi.upvote_entry no_failure resolve s now token id).resp =
      some (.ok p)) :
    ∃ user_id en, resolve token = some user_id ∧ s.entries id = some en ∧
      entries_has_user_voted s now user_id en.id = false ∧
      0 < get_user_vote_credits s user_id ∧
      p = { en with votes := en.votes + 1 } := by
  unfold PlaylistsApi.upvote_entry at h
  cases hres : resolve token with
  | none => rw [hres] at h; simp at h
  | some user_id =>
    rw [hres] at h
    cases hen : s.entries id with
    | none => rw [hen] at h; simp [no_failure] at h
    | some en =>
      rw [hen] at h
      by_cases hv : entries_has_user_voted s now user_id en.id
      · simp [no_failure, hv] at h
      · by_cases hc : get_user_vote_credits s user_id ≤ 0
        · simp [no_failure, hv, hc] at h
        · refine ⟨user_id, en, rfl, rfl, by simp [hv], by omega, ?_⟩
          simp [no_failure, hv, hc] at h
          exact h.symm

/-- The whole fault-free playlist vote run once every gate passes: the three
writes happen, in order, and the read playlist comes back bumped. -/
theorem upvote_playlist_run_eq
    (resolve : String → Option Int) (s : Store) (now : Nat) (token : String)
    (id : Nat) (user_id : Int) (pl : Playlist)
    (hres : resolve token = some user_id) (hpl : s.playlists id = some pl)
    (hv : playlist_has_user_voted s now user_id pl.id = false)
    (hc : 0 < get_user_vote_credits s user_id) :
    PlaylistsApi.upvote_playlist no_failure resolve s now token id =
      ⟨some (.ok { pl with votes := pl.votes + 1 }),
       playlist_increment_votes
         (playlist_record_vote (adjust_user_credits s user_id (-1)) now user_id pl.id)
         pl.id,
       vote_call_order⟩ := by
  have hc' : ¬ get_user_vote_credits s user_id ≤ 0 := by omega
  simp [PlaylistsApi.upvote_playlist, no_failure, hres, hpl, hv, hc', vote_call_order]

/-- Run-shape twin of `upvote_playlist_run_eq` for the entry handler. -/
theorem upvote_entry_run_eq
    (resolve : String → Option Int) (s : Store) (now : Nat) (token : String)
    (id : Nat) (user_id : Int) (en : PlaylistEntry)
    (hres : resolve token = some user_id) (hen : s.entries id = some en)
    (hv : entries_has_user_voted s now user_id en.id = false)
    (hc : 0 < get_user_vote_credits s user_id) :
    PlaylistsApi.upvote_entry no_failure resolve s now token id =
      ⟨some (.ok { en with votes := en.votes + 1 }),
       entries_increment_votes
         (entries_record_vote (adjust_user_credits s user_id (-1)) now user_id en.id)
         en.id,
       vote_call_order⟩ := by
  have hc' : ¬ get_user_vote_credits s user_id ≤ 0 := by omega
  simp [PlaylistsApi.upvote_entry, no_failure, hres, hen, hv, hc', vote_call_order]

/-- C6: when the bearer token does not resolve to a user id, every
authenticated operation — playlist vote, entry vote, playlist delete, entry
delete, entry create — returns Unauthorized, leaves the store untouched, and
issues no store call on targets, credits or cooldowns (empty op trace for the
vote handlers); it is never treated as an anonymous vote. -/
theorem unauthenticated_rejected_before_store
    (fails : StoreOp → Bool) (resolve : String → Option Int) (s : Store) (db : Db)
    (now : Nat) (token : String) (id : Nat) (payload : EntryCreationPayload)
    (entry_id : Nat) (h : resolve token = none) :
    PlaylistsApi.upvote_playlist fails resolve s now token id =
      ⟨some .unauthorized, s, []⟩ ∧
    PlaylistsApi.upvote_entry fails resolve s now token id =
      ⟨some .unauthorized, s, []⟩ ∧
    PlaylistsApi.delete_playlist resolve s token id = (.unauthorized, s) ∧
    PlaylistsApi.delete_playlist_entry resolve s token id = (.unauthorized, s) ∧
    PlaylistsApi.create_entry resolve db token payload entry_id = (.unauthorized, db) := by
  refine ⟨?_, ?_, ?_, ?_, ?_⟩
  · simp [PlaylistsApi.upvote_playlist, h]
  · simp [PlaylistsApi.upvote_entry, h]
  · simp [PlaylistsApi.delete_playlist, h]
  · simp [PlaylistsApi.delete_playlist_entry, h]
  · simp [PlaylistsApi.create_entry, h]

/-- C6 witness: a token no user owns is rejected by the playlist vote handler
of the concrete store with nothing touched. -/
theorem unauthenticated_rejected_before_store_witness :
    ex_resolve "other" = none ∧
    PlaylistsApi.upvote_playlist no_failure ex_resolve ex_store 0 "other" 7 =
      ⟨some .unauthorized, ex_store, []⟩ :=
  ⟨by decide,
   (unauthenticated_rejected_before_store no_failure ex_resolve ex_store ex_db 0
     "other" 7 ex_payload 3 (by decide)).1⟩

/-- C7: an authenticated delete of a playlist or entry the requester does not
own returns Forbidden and removes nothing (the store is unchanged); a delete
of a missing target instead returns the BadRequest client error with its
explanatory detail; and Forbidden is distinct from every BadRequest. -/
theorem delete_ownership_gate
    (resolve : String → Option Int) (s : Store) (token : String) (id : Nat)
    (user_id : Int) (hres : resolve token = some user_id) :
    (s.playlists id = none →
      PlaylistsApi.delete_playlist resolve s token id =
        (.badRequest "Playlist does not exist.", s)) ∧
    (∀ pl, s.playlists id = some pl → pl.owner_id ≠ user_id →
      PlaylistsApi.delete_playlist resolve s token id = (.forbidden, s)) ∧
    (s.entries id = none →
      PlaylistsApi.delete_playlist_entry resolve s token id =
        (.badRequest "Playlist does not exist.", s)) ∧
    (∀ en, s.entries id = some en → en.owner_id ≠ user_id →
      PlaylistsApi.delete_playlist_entry resolve s token id = (.forbidden, s)) ∧
    (∀ d : String, (JsonResponse.forbidden : JsonResponse Value) ≠ .badRequest d) := by
  refine ⟨?_, ?_, ?_, ?_, ?_⟩
  · intro hnone; simp [PlaylistsApi.delete_playlist, hres, hnone]
  · intro pl hpl howner; simp [PlaylistsApi.delete_playlist, hres, hpl, howner]
  · intro hnone; simp [PlaylistsApi.delete_playlist_entry, hres, hnone]
  · intro en hen howner; simp [PlaylistsApi.delete_playlist_entry, hres, hen, howner]
  · intro d hcontra; exact JsonResponse.noConfusion hcontra

/-- C7 witness: user 1 deleting entry 9 (owned by user 2) of the concrete
store gets Forbidden and the store keeps the entry. -/
theorem delete_ownership_gate_witness :
    ex_resolve "tok" = some 1 ∧
    ex_store.entries 9 = some ex_entry ∧
    ex_entry.owner_id ≠ 1 ∧
    PlaylistsApi.delete_playlist_entry ex_resolve ex_store "tok" 9 =
      (.forbidden, ex_store) :=
  ⟨by decide, by decide, by decide,
   (delete_ownership_gate ex_resolve ex_store "tok" 9 1 (by decide)).2.2.2.1
     ex_entry (by decide) (by decide)⟩

/-- C2: with the target resolved and no cooldown active, a balance read of at
most zero makes the vote handler return the InsufficientCredits BadRequest
with the store exactly as it was — no credit adjustment, no cooldown record,
no counter increment — and an op trace of the three reads only. -/
theorem insufficient_credits_no_writes
    (resolve : String → Option Int) (s : Store) (now : Nat) (token : String)
    (id : Nat) (user_id : Int) (hres : resolve token = some user_id)
    (hcred : get_user_vote_credits s user_id ≤ 0) :
    (∀ pl, s.playlists id = some pl →
      playlist_has_user_voted s now user_id pl.id = false →
      PlaylistsApi.upvote_playlist no_failure resolve s now token id =
        ⟨some (.badRequest "You do not have enough credits."), s,
         [.readTarget, .readCooldown, .readBalance]⟩) ∧
    (∀ en, s.entries id = some en →
      entries_has_user_voted s now user_id en.id = false →
      PlaylistsApi.upvote_entry no_failure resolve s now token id =
        ⟨some (.badRequest "You do not have enough credits."), s,
         [.readTarget, .readCooldown, .readBalance]⟩) := by
  constructor
  · intro pl hpl hv
    simp [PlaylistsApi.upvote_playlist, no_failure, hres, hpl, hv, hcred]
  · intro en hen hv
    simp [PlaylistsApi.upvote_entry, no_failure, hres, hen, hv, hcred]

/-- C2 witness: user 1 with balance 0 voting on playlist 7 of the concrete
store is rejected for credits and nothing is written. -/
theorem insufficient_credits_no_writes_witness :
    ex_resolve "tok" = some 1 ∧
    get_user_vote_credits ex_store_broke 1 ≤ 0 ∧
    ex_store_broke.playlists 7 = some ex_playlist ∧
    playlist_has_user_voted ex_store_broke 0 1 ex_playlist.id = false ∧
    PlaylistsApi.upvote_playlist no_failure ex_resolve ex_store_broke 0 "tok" 7 =
      ⟨some (.badRequest "You do not have enough credits."), ex_store_broke,
       [.readTarget, .readCooldown, .readBalance]⟩ :=
  ⟨by decide, by decide, by decide, by decide,
   (insufficient_credits_no_writes ex_resolve ex_store_broke 0 "tok" 7 1
     (by decide) (by decide)).1 ex_playlist (by decide) (by decide)⟩

/-- C5: any fault-free Success of a vote handler returns the target read
during target resolution with its vote count bumped by exactly one,
client-side: the response value is the previously read record with
`votes := votes + 1`, not a re-read of the store. -/
theorem success_returns_prior_plus_one
    (resolve : String → Option Int) (s : Store) (now : Nat) (token : String)
    (id : Nat) (p : Playlist) (pe : PlaylistEntry) :
    ((PlaylistsApi.upvote_playlist no_failure resolve s now token id).resp =
        some (.ok p) →
      ∀ pl, s.playlists id = some pl →
        p = { pl with votes := pl.votes + 1 }) ∧
    ((PlaylistsApi.upvote_entry no_failure resolve s now token id).resp =
        some (.ok pe) →
      ∀ en, s.entries id = some en →
        pe = { en with votes := en.votes + 1 }) := by
  constructor
  · intro h pl hpl
    obtain ⟨user_id, pl2, _, hpl2, _, _, hp⟩ :=
      upvote_playlist_success_shape resolve s now token id p h
    rw [hpl] at hpl2
    cases hpl2
    exact hp
  · intro h en hen
    obtain ⟨user_id, en2, _, hen2, _, _, hp⟩ :=
      upvote_entry_success_shape resolve s now token id pe h
    rw [hen] at hen2
    cases hen2
    exact hp

/-- C5 witness: the successful vote on playlist 7 (read with 5 votes) returns
that playlist with 6 votes. -/
theorem success_returns_prior_plus_one_witness :
    (PlaylistsApi.upvote_playlist no_failure ex_resolve ex_store 0 "tok" 7).resp =
      some (.ok { ex_playlist with votes := ex_playlist.votes + 1 }) ∧
    ex_store.playlists 7 = some ex_playlist ∧
    { ex_playlist with votes := ex_playlist.votes + 1 } =
      { ex_playlist with votes := ex_playlist.votes + 1 } :=
  ⟨by decide, by decide,
   (success_returns_prior_plus_one ex_resolve ex_store 0 "tok" 7
       { ex_playlist with votes := ex_playlist.votes + 1 } ex_entry).1
     (by decide) ex_playlist (by decide)⟩

/-- C1: after a fault-free Success of a vote, a second vote by the same token
on the same target within the 12-hour window returns the CooldownActive
BadRequest, leaves the store exactly as the first call left it (no credit
spent, no cooldown entry written, no counter increment), and issues only the
two reads. -/
theorem vote_cooldown_idempotent
    (resolve : String → Option Int) (s : Store) (now now2 : Nat) (token : String)
    (id : Nat) (p : Playlist) (pe : PlaylistEntry)
    (hwin : now2 - now < cooldown_window) :
    ((PlaylistsApi.upvote_playlist no_failure resolve s now token id).resp =
        some (.ok p) →
      PlaylistsApi.upvote_playlist no_failure resolve
          (PlaylistsApi.upvote_playlist no_failure resolve s now token id).store
          now2 token id =
        ⟨some (.badRequest "You have already up-voted this playlist in the last 12 hours."),
         (PlaylistsApi.upvote_playlist no_failure resolve s now token id).store,
         [.readTarget, .readCooldown]⟩) ∧
    ((PlaylistsApi.upvote_entry no_failure resolve s now token id).resp =
        some (.ok pe) →
      PlaylistsApi.upvote_entry no_failure resolve
          (PlaylistsApi.upvote_entry no_failure resolve s now token id).store
          now2 token id =
        ⟨some (.badRequest "You have already up-voted this entry in the last 12 hours."),
         (PlaylistsApi.upvote_entry no_failure resolve s now token id).store,
         [.readTarget, .readCooldown]⟩) := by
  constructor
  · intro h
    obtain ⟨user_id, pl, hres, hpl, hv, hc, hp⟩ :=
      upvote_playlist_success_shape resolve s now token id p h
    rw [upvote_playlist_run_eq resolve s now token id user_id pl hres hpl hv hc]
    by_cases hid : id = pl.id
    · subst hid
      simp [PlaylistsApi.upvote_playlist, no_failure, hres, hpl,
            playlist_increment_votes, playlist_record_vote, adjust_user_credits,
            playlist_has_user_voted, has_voted_recently, hwin]
    · simp [PlaylistsApi.upvote_playlist, no_failure, hres, hpl, hid,
            playlist_increment_votes, playlist_record_vote, adjust_user_credits,
            playlist_has_user_voted, has_voted_recently, hwin]
  · intro h
    obtain ⟨user_id, en, hres, hen, hv, hc, hp⟩ :=
      upvote_entry_success_shape resolve s now token id pe h
    rw [upvote_entry_run_eq resolve s now token id user_id en hres hen hv hc]
    by_cases hid : id = en.id
    · subst hid
      simp [PlaylistsApi.upvote_entry, no_failure, hres, hen,
            entries_increment_votes, entries_record_vote, adjust_user_credits,
            entries_has_user_voted, has_voted_recently, hwin]
    · simp [PlaylistsApi.upvote_entry, no_failure, hres, hen, hid,
            entries_increment_votes, entries_record_vote, adjust_user_credits,
            entries_has_user_voted, has_voted_recently, hwin]

/-- C1 witness: vote at time 0 on playlist 7 succeeds; the retry at time 1 is
rejected with the cooldown message and changes nothing. -/
theorem vote_cooldown_idempotent_witness :
    (1 : Nat) - 0 < cooldown_window ∧
    (PlaylistsApi.upvote_playlist no_failure ex_resolve ex_store 0 "tok" 7).resp =
      some (.ok { ex_playlist with votes := ex_playlist.votes + 1 }) ∧
    PlaylistsApi.upvote_playlist no_failure ex_resolve
        (PlaylistsApi.upvote_playlist no_failure ex_resolve ex_store 0 "tok" 7).store
        1 "tok" 7 =
      ⟨some (.badRequest "You have already up-voted this playlist in the last 12 hours."),
       (PlaylistsApi.upvote_playlist no_failure ex_resolve ex_store 0 "tok" 7).store,
       [.readTarget, .readCooldown]⟩ :=
  ⟨by decide, by decide,
   (vote_cooldown_idempotent ex_resolve ex_store 0 1 "tok" 7
       { ex_playlist with votes := ex_playlist.votes + 1 } ex_entry (by decide)).1
     (by decide)⟩

/-- C3: every vote attempt issues its store calls in the fixed source order
target read, cooldown read, balance read, credit debit, cooldown record,
counter increment — under every failure pattern the executed trace is a
prefix of that order, so the debit always precedes the cooldown record and
the increment; and when the cooldown record (or the increment) is the call
that fails after all gates passed, the run errors with the debit (and, for
the increment, the cooldown record) already applied and not rolled back. -/
theorem cast_vote_step_order
    (resolve : String → Option Int) (s : Store) (now : Nat) (token : String)
    (id : Nat) :
    (∀ fails, ∃ n,
      (PlaylistsApi.upvote_playlist fails resolve s now token id).ops =
        vote_call_order.take n) ∧
    (∀ fails, ∃ n,
      (PlaylistsApi.upvote_entry fails resolve s now token id).ops =
        vote_call_order.take n) ∧
    (∀ user_id pl, resolve token = some user_id → s.playlists id = some pl →
      playlist_has_user_voted s now user_id pl.id = false →
      0 < get_user_vote_credits s user_id →
      PlaylistsApi.upvote_playlist (fail_only .writeCooldown) resolve s now token id =
        ⟨none, adjust_user_credits s user_id (-1),
         [.readTarget, .readCooldown, .readBalance, .writeDebit]⟩ ∧
      PlaylistsApi.upvote_playlist (fail_only .writeIncrement) resolve s now token id =
        ⟨none,
         playlist_record_vote (adjust_user_credits s user_id (-1)) now user_id pl.id,
         [.readTarget, .readCooldown, .readBalance, .writeDebit, .writeCooldown]⟩) ∧
    (∀ user_id en, resolve token = some user_id → s.entries id = some en →
      entries_has_user_voted s now user_id en.id = false →
      0 < get_user_vote_credits s user_id →
      PlaylistsApi.upvote_entry (fail_only .writeCooldown) resolve s now token id =
        ⟨none, adjust_user_credits s user_id (-1),
         [.readTarget, .readCooldown, .readBalance, .writeDebit]⟩ ∧
      PlaylistsApi.upvote_entry (fail_only .writeIncrement) resolve s now token id =
        ⟨none,
         entries_record_vote (adjust_user_credits s user_id (-1)) now user_id en.id,
         [.readTarget, .readCooldown, .readBalance, .writeDebit, .writeCooldown]⟩) := by
  refine ⟨fun fails => ?_, fun fails => ?_, ?_, ?_⟩
  · unfold PlaylistsApi.upvote_playlist
    cases resolve token with
    | none => exact ⟨0, rfl⟩
    | some user_id =>
      dsimp only
      by_cases h1 : fails .readTarget = true
      · rw [if_pos h1]; exact ⟨0, rfl⟩
      · rw [if_neg h1]
        cases s.playlists id with
        | none => exact ⟨1, rfl⟩
        | some pl =>
          dsimp only
          by_cases h2 : fails .readCooldown = true
          · rw [if_pos h2]; exact ⟨1, rfl⟩
          · rw [if_neg h2]
            by_cases h3 : playlist_has_user_voted s now user_id pl.id = true
            · rw [if_pos h3]; exact ⟨2, rfl⟩
            · rw [if_neg h3]
              by_cases h4 : fails .readBalance = true
              · rw [if_pos h4]; exact ⟨2, rfl⟩
              · rw [if_neg h4]
                by_cases h5 : get_user_vote_credits s user_id ≤ 0
                · rw [if_pos h5]; exact ⟨3, rfl⟩
                · rw [if_neg h5]
                  by_cases h6 : fails .writeDebit = true
                  · rw [if_pos h6]; exact ⟨3, rfl⟩
                  · rw [if_neg h6]
                    by_cases h7 : fails .writeCooldown = true
                    · rw [if_pos h7]; exact ⟨4, rfl⟩
                    · rw [if_neg h7]
                      by_cases h8 : fails .writeIncrement = true
                      · rw [if_pos h8]; exact ⟨5, rfl⟩
                      · rw [if_neg h8]; exact ⟨6, rfl⟩
  · unfold PlaylistsApi.upvote_entry
    cases resolve token with
    | none => exact ⟨0, rfl⟩
    | some user_id =>
      dsimp only
      by_cases h1 : fails .readTarget = true
      · rw [if_pos h1]; exact ⟨0, rfl⟩
      · rw [if_neg h1]
        cases s.entries id with
        | none => exact ⟨1, rfl⟩
        | some en =>
          dsimp only
          by_cases h2 : fails .readCooldown = true
          · rw [if_pos h2]; exact ⟨1, rfl⟩
          · rw [if_neg h2]
            by_cases h3 : entries_has_user_voted s now user_id en.id = true
            · rw [if_pos h3]; exact ⟨2, rfl⟩
            · rw [if_neg h3]
              by_cases h4 : fails .readBalance = true
              · rw [if_pos h4]; exact ⟨2, rfl⟩
              · rw [if_neg h4]
                by_cases h5 : get_user_vote_credits s user_id ≤ 0
                · rw [if_pos h5]; exact ⟨3, rfl⟩
                · rw [if_neg h5]
                  by_cases h6 : fails .writeDebit = true
                  · rw [if_pos h6]; exact ⟨3, rfl⟩
                  · rw [if_neg h6]
                    by_cases h7 : fails .writeCooldown = true
                    · rw [if_pos h7]; exact ⟨4, rfl⟩
                    · rw [if_neg h7]
                      by_cases h8 : fails .writeIncrement = true
                      · rw [if_pos h8]; exact ⟨5, rfl⟩
                      · rw [if_neg h8]; exact ⟨6, rfl⟩
  · intro user_id pl hres hpl hv hc
    have hc' : ¬ get_user_vote_credits s user_id ≤ 0 := by omega
    constructor
    · simp [PlaylistsApi.upvote_playlist, fail_only, hres, hpl, hv, hc']
    · simp [PlaylistsApi.upvote_playlist, fail_only, hres, hpl, hv, hc']
  · intro user_id en hres hen hv hc
    have hc' : ¬ get_user_vote_credits s user_id ≤ 0 := by omega
    constructor
    · simp [PlaylistsApi.upvote_entry, fail_only, hres, hen, hv, hc']
    · simp [PlaylistsApi.upvote_entry, fail_only, hres, hen, hv, hc']

/-- C3 witness: on the concrete store, the run that dies at the cooldown
record leaves exactly the debit behind. -/
theorem cast_vote_step_order_witness :
    ex_resolve "tok" = some 1 ∧
    ex_store.playlists 7 = some ex_playlist ∧
    playlist_has_user_voted ex_store 0 1 ex_playlist.id = false ∧
    0 < get_user_vote_credits ex_store 1 ∧
    (PlaylistsApi.upvote_playlist (fail_only .writeCooldown) ex_resolve ex_store 0 "tok" 7 =
       ⟨none, adjust_user_credits ex_store 1 (-1),
        [.readTarget, .readCooldown, .readBalance, .writeDebit]⟩ ∧
     PlaylistsApi.upvote_playlist (fail_only .writeIncrement) ex_resolve ex_store 0 "tok" 7 =
       ⟨none,
        playlist_record_vote (adjust_user_credits ex_store 1 (-1)) 0 1 ex_playlist.id,
        [.readTarget, .readCooldown, .readBalance, .writeDebit, .writeCooldown]⟩) :=
  ⟨by decide, by decide, by decide, by decide,
   (cast_vote_step_order ex_resolve ex_store 0 "tok" 7).2.2.1 1 ex_playlist
     (by decide) (by decide) (by decide) (by decide)⟩

/-- Concrete database with one well-typed playlist row. -/
def ex_db_rows : Db :=
  ⟨fun n => if n = "playlists" then [Row.playlistRow ex_playlist] else []⟩

/-- C8: `create_entry` inserts into the table `playlist_entries` while
`get_playlist_entries_for_token` selects from the table named
`playlists_entries`, so creating an entry never changes any listing result,
and a freshly created entry (its id absent from the queried table) is absent
from every returned list — in particular from its owner. -/
theorem created_entry_invisible_to_listing
    (resolve resolve2 : String → Option Int) (db : Db) (token token2 : String)
    (payload : EntryCreationPayload) (entry_id : Nat)
    (hfresh : ∀ r ∈ db.tables "playlists_entries", ∀ e,
      row_into_typed_entry r = some e → e.id ≠ entry_id) :
    get_playlist_entries_for_token resolve2
        (PlaylistsApi.create_entry resolve db token payload entry_id).2 token2 =
      get_playlist_entries_for_token resolve2 db token2 ∧
    (∀ l, get_playlist_entries_for_token resolve2
        (PlaylistsApi.create_entry resolve db token payload entry_id).2 token2 =
          some l →
      ∀ e ∈ l, e.id ≠ entry_id) := by
  have htab : ((PlaylistsApi.create_entry resolve db token payload entry_id).2).tables
      "playlists_entries" = db.tables "playlists_entries" := by
    unfold PlaylistsApi.create_entry
    cases resolve token with
    | none => rfl
    | some user_id =>
      dsimp only
      dsimp only [db_insert]
      exact if_neg (by decide)
  have hEq : get_playlist_entries_for_token resolve2
      (PlaylistsApi.create_entry resolve db token payload entry_id).2 token2 =
      get_playlist_entries_for_token resolve2 db token2 := by
    simp only [get_playlist_entries_for_token, db_select_by_owner, htab]
  refine ⟨hEq, ?_⟩
  intro l hl e hel
  rw [hEq] at hl
  unfold get_playlist_entries_for_token at hl
  cases hres2 : resolve2 token2 with
  | none => rw [hres2] at hl; simp at hl
  | some user_id =>
    rw [hres2] at hl
    simp only [Option.some.injEq] at hl
    subst hl
    obtain ⟨r, hr, hconv⟩ := List.mem_filterMap.mp hel
    have hrtab : r ∈ db.tables "playlists_entries" := by
      have h2 := hr
      simp [db_select_by_owner, List.mem_filter] at h2
      exact h2.1
    exact hfresh r hrtab e hconv

/-- C8 witness: creating entry 3 over the empty database leaves the listing
for its owner unchanged (still the empty listing). -/
theorem created_entry_invisible_to_listing_witness :
    (∀ r ∈ ex_db.tables "playlists_entries", ∀ e,
      row_into_typed_entry r = some e → e.id ≠ 3) ∧
    get_playlist_entries_for_token ex_resolve
        (PlaylistsApi.create_entry ex_resolve ex_db "tok" ex_payload 3).2 "tok" =
      get_playlist_entries_for_token ex_resolve ex_db "tok" :=
  ⟨fun r hr => by simp [ex_db] at hr,
   (created_entry_invisible_to_listing ex_resolve ex_resolve ex_db "tok" "tok"
       ex_payload 3 (fun r hr => by simp [ex_db] at hr)).1⟩

/-- C10: both listing functions return exactly the rows of the owner that
convert under typed deserialization — membership in the returned list is
equivalent to being a successfully converted matching row — and inserting a
row that fails conversion leaves the returned value (and so the success
outcome) unchanged: malformed rows are silently dropped. -/
theorem listing_drops_malformed_rows
    (resolve : String → Option Int) (db : Db) (token : String) (user_id : Int)
    (hres : resolve token = some user_id) :
    (∀ l, get_playlists_for_token resolve db token = some l →
      ∀ p, p ∈ l ↔ ∃ r, r ∈ db.tables "playlists" ∧ row_owner_id r = user_id ∧
        row_into_typed_playlist r = some p) ∧
    (∀ l, get_playlist_entries_for_token resolve db token = some l →
      ∀ e, e ∈ l ↔ ∃ r, r ∈ db.tables "playlists_entries" ∧ row_owner_id r = user_id ∧
        row_into_typed_entry r = some e) ∧
    (∀ r, row_into_typed_playlist r = none →
      get_playlists_for_token resolve (db_insert db "playlists" r) token =
        get_playlists_for_token resolve db token) ∧
    (∀ r, row_into_typed_entry r = none →
      get_playlist_entries_for_token resolve (db_insert db "playlists_entries" r) token =
        get_playlist_entries_for_token resolve db token) := by
  refine ⟨?_, ?_, ?_, ?_⟩
  · intro l hl p
    unfold get_playlists_for_token at hl
    rw [hres] at hl
    simp only [Option.some.injEq] at hl
    subst hl
    simp [List.mem_filterMap, db_select_by_owner, List.mem_filter, beq_iff_eq,
      and_assoc]
  · intro l hl e
    unfold get_playlist_entries_for_token at hl
    rw [hres] at hl
    simp only [Option.some.injEq] at hl
    subst hl
    simp [List.mem_filterMap, db_select_by_owner, List.mem_filter, beq_iff_eq,
      and_assoc]
  · intro r hr
    simp only [get_playlists_for_token, hres, db_select_by_owner, db_insert]
    by_cases ho : row_owner_id r == user_id
    · simp [List.filter_cons, ho, List.filterMap_cons, hr]
    · simp [List.filter_cons, ho]
  · intro r hr
    simp only [get_playlist_entries_for_token, hres, db_select_by_owner, db_insert]
    by_cases ho : row_owner_id r == user_id
    · simp [List.filter_cons, ho, List.filterMap_cons, hr]
    · simp [List.filter_cons, ho]

/-- C10 witness: a malformed row of owner 1 pushed into `playlists` does not
change the listing of user 1. -/
theorem listing_drops_malformed_rows_witness :
    ex_resolve "tok" = some 1 ∧
    row_into_typed_playlist (Row.badRow 1 0) = none ∧
    get_playlists_for_token ex_resolve
        (db_insert ex_db_rows "playlists" (Row.badRow 1 0)) "tok" =
      get_playlists_for_token ex_resolve ex_db_rows "tok" :=
  ⟨by decide, by decide,
   (listing_drops_malformed_rows ex_resolve ex_db_rows "tok" 1 (by decide)).2.2.1
     (Row.badRow 1 0) (by decide)⟩
